import Mathlib

/-!
Shallow embedding of `src/app.py` (course-catalog Flask service): the catalog
store (`load_courses`, `save_courses`), the traced request handlers
(`add_course`, `course_catalog`, `course_details`, `manual_trace`) with their
span trees, and theorems settling the specification claims.

Modelling conventions:
- A course record is the Python dict built in `add_course`: an association
  list of (key, value) string pairs in insertion order.
- The backing JSON file is a `FileState`: absent, well-formed content, or
  malformed (carrying the parse-error message `str(e)`).
- I/O failures during the write in `save_courses` are injected through
  `Env.writeFault` (the message is the Python `str(e)` of the raised error);
  this models the external file system, not repository logic.
- Span timestamps are a logical clock: times are assigned in execution
  order, one tick per span open/close, mirroring the nesting of the
  `with tracer.start_as_current_span(...)` context managers, which close
  their span on every exit path including exceptions.
-/

/-- Value of a span attribute (`set_attribute` accepts strings, ints, bools). -/
inductive AttrVal where
  | str (s : String)
  | nat (n : Nat)
  | bool (b : Bool)
deriving DecidableEq, Repr

/-- A timestamped span event (`add_event(name, attributes)`); the timestamp is
implicit in the ordering of the enclosing span's event list. -/
structure SpanEvent where
  name : String
  attrs : List (String × AttrVal)
deriving DecidableEq, Repr

/-- Span kind: default internal, or explicit `SpanKind.SERVER`. -/
inductive SKind where
  | internal
  | server
deriving DecidableEq, Repr

/-- A child (leaf) span: name, kind, logical start/end time, attributes in
the order they were set, events in the order they were added. In this program
no child span opens a further span, so child spans are leaves. -/
structure Span where
  name : String
  kind : SKind
  startTime : Nat
  endTime : Nat
  attrs : List (String × AttrVal)
  events : List SpanEvent
deriving DecidableEq, Repr

/-- The root span of one inbound operation, with its child spans in the order
they were opened (the trace tree of this program has depth at most two). -/
structure RootSpan where
  name : String
  kind : SKind
  startTime : Nat
  endTime : Nat
  attrs : List (String × AttrVal)
  events : List SpanEvent
  children : List Span
deriving DecidableEq, Repr

/-- A course record: the dict built by `add_course` or parsed from the JSON
file, as an association list in insertion order. -/
abbrev Course := List (String × String)

/-- State of the backing file `course_catalog.json`: absent, present with a
parsed list of records, or present but malformed (with the parse-error
message). -/
inductive FileState where
  | absent
  | content (cs : List Course)
  | malformed (msg : String)
deriving DecidableEq, Repr

/-- Environment of one request: the backing file, and an injected I/O fault
for the write in `save_courses` (`none` = the write succeeds; `some msg` = the
write raises an error whose `str(e)` is `msg`). -/
structure Env where
  file : FileState
  writeFault : Option String
deriving DecidableEq, Repr

/-- Embeds `load_courses` (src/app.py lines 43-49): if the file does not
exist, return `[]`; otherwise parse it, propagating a parse failure. -/
def load_courses : FileState → Except String (List Course)
  | .absent => .ok []
  | .content cs => .ok cs
  | .malformed msg => .error msg

/-- Embeds `save_courses` (src/app.py lines 51-56): `load_courses()`, append
the record, rewrite the file in full. A load parse-failure or an injected
write fault propagates as an error. -/
def save_courses (env : Env) (data : Course) : Except String FileState :=
  match load_courses env.file with
  | .error e => .error e
  | .ok courses =>
    match env.writeFault with
    | some e => .error e
    | none => .ok (.content (courses ++ [data]))

/-- The nine required field names, in the order listed in `add_course`
(src/app.py lines 82-84). -/
def requiredFields : List String :=
  ["code", "name", "instructor", "semester", "schedule",
   "classroom", "prerequisites", "grading", "description"]

/-- Embeds `request.form.get(field, '')`: first value bound to the key, or the
empty string when the key is absent from the form. -/
def formGet (form : List (String × String)) (k : String) : String :=
  match form.find? (fun kv => kv.1 == k) with
  | some kv => kv.2
  | none => ""

/-- Characters stripped by Python `str.strip()` (ASCII whitespace; exotic
Unicode space code points are not modelled). -/
def isPySpace (c : Char) : Bool :=
  c == ' ' || c == '\t' || c == '\n' || c == '\r' || c == '\x0b' || c == '\x0c'

/-- Embeds Python `str.strip()`: remove leading and trailing whitespace. -/
def pyStrip (s : String) : String :=
  String.mk (((s.data.dropWhile isPySpace).reverse.dropWhile isPySpace).reverse)

/-- Embeds the dict comprehension of src/app.py lines 82-84:
`{field: request.form.get(field, '').strip() for field in [...]}`. -/
def parseForm (form : List (String × String)) : Course :=
  requiredFields.map (fun f => (f, pyStrip (formGet form f)))

/-- Embeds `[key for key, value in course.items() if not value]`
(src/app.py line 88): keys of the record whose value is empty, in insertion
order. -/
def missingFields (course : Course) : List String :=
  (course.filter (fun kv => kv.2 == "")).map (fun kv => kv.1)

/-- Embeds Python dict lookup `d[k]` as an optional first-match lookup;
`none` corresponds to a `KeyError`. -/
def dictFind? (c : Course) (k : String) : Option String :=
  (c.find? (fun kv => kv.1 == k)).map (fun kv => kv.2)

/-- Embeds `d[k]` where the surrounding code guarantees the key is present
(the dicts built by `parseForm` carry all nine keys). -/
def dictGetD (c : Course) (k : String) : String :=
  (dictFind? c k).getD ""

/-- Shallow model of `json.dumps(course)` for the attribute
`form.data_received`: keys and values are fixed-field strings, rendered
without escaping (no claim depends on this value). -/
def jsonDumps (c : Course) : String :=
  "\x7b" ++ String.intercalate ", "
    (c.map (fun kv => "\"" ++ kv.1 ++ "\": \"" ++ kv.2 ++ "\"")) ++ "\x7d"

/-- An HTTP-level response produced by a handler: a rendered template or a
redirect to another route. -/
inductive HttpResponse where
  | render (template : String)
  | redirect (target : String)
deriving DecidableEq, Repr

/-- Result of one `add_course` request: the response, flash messages in the
order flashed (message, category), the backing file afterwards, the root
span, and error-log lines written via `app.logger.error`. -/
structure AddCourseResult where
  response : HttpResponse
  flashes : List (String × String)
  file : FileState
  rootSpan : RootSpan
  logs : List String
deriving DecidableEq, Repr

/-- Embeds the `add_course` handler (src/app.py lines 73-124). Span times are
a logical clock ticking once per span open/close in execution order; every
branch closes each opened span because the `with` context managers close
their spans on every exit path, including exceptions. The only modelled
exception source is `save_courses` (parse failure on load, or the injected
write fault); it is annotated on the save span, re-raised, and caught by the
handler of the root span's try block. -/
def add_course (method : String) (form : List (String × String)) (env : Env) :
    AddCourseResult :=
  let baseAttrs : List (String × AttrVal) :=
    [("http.method", .str method), ("http.route", .str "/add_course")]
  if method == "POST" then
    let course := parseForm form
    let formSpan : Span :=
      { name := "Handle Form Data", kind := .internal,
        startTime := 1, endTime := 2,
        attrs := [("form.data_received", .str (jsonDumps course))],
        events := [] }
    let missing := missingFields course
    if missing == [] then
      let validationSpan : Span :=
        { name := "Validate Form Data", kind := .internal,
          startTime := 3, endTime := 4, attrs := [], events := [] }
      match save_courses env course with
      | .ok newFile =>
        let saveSpan : Span :=
          { name := "Save Course Data", kind := .internal,
            startTime := 5, endTime := 6, attrs := [],
            events := [⟨"Course saved successfully",
                        [("course_code", .str (dictGetD course "code"))]⟩] }
        { response := .redirect "course_catalog",
          flashes := [("Course \x27" ++ dictGetD course "name" ++
                       "\x27 added successfully!", "success")],
          file := newFile,
          rootSpan :=
            { name := "Add Course Operation", kind := .internal,
              startTime := 0, endTime := 7, attrs := baseAttrs, events := [],
              children := [formSpan, validationSpan, saveSpan] },
          logs := [] }
      | .error e =>
        let saveSpan : Span :=
          { name := "Save Course Data", kind := .internal,
            startTime := 5, endTime := 6,
            attrs := [("error", .bool true)],
            events := [⟨"Database Error",
                        [("message", .str ("Failed to save course: " ++ e))]⟩] }
        { response := .render "add_course.html",
          flashes := [("An unexpected error occurred. Please try again later.",
                       "error")],
          file := env.file,
          rootSpan :=
            { name := "Add Course Operation", kind := .internal,
              startTime := 0, endTime := 7,
              attrs := baseAttrs ++ [("error", .bool true)],
              events := [⟨"Unhandled Exception",
                          [("message",
                            .str ("Unexpected error occurred: " ++ e))]⟩],
              children := [formSpan, validationSpan, saveSpan] },
          logs := ["Unexpected error occurred: " ++ e] }
    else
      let errorMessage := "Missing fields: " ++ String.intercalate ", " missing
      let validationSpan : Span :=
        { name := "Validate Form Data", kind := .internal,
          startTime := 3, endTime := 4,
          attrs := [("error", .bool true)],
          events := [⟨"Validation Error",
                      [("missing_fields",
                        .str (String.intercalate ", " missing)),
                       ("message", .str errorMessage)]⟩] }
      { response := .render "add_course.html",
        flashes := [(errorMessage, "error")],
        file := env.file,
        rootSpan :=
          { name := "Add Course Operation", kind := .internal,
            startTime := 0, endTime := 5, attrs := baseAttrs, events := [],
            children := [formSpan, validationSpan] },
        logs := [] }
  else
    { response := .render "add_course.html",
      flashes := [],
      file := env.file,
      rootSpan :=
        { name := "Add Course Operation", kind := .internal,
          startTime := 0, endTime := 1, attrs := baseAttrs,
          events := [⟨"Rendered course addition form", []⟩], children := [] },
      logs := [] }

instance {ε α : Type} [DecidableEq ε] [DecidableEq α] :
    DecidableEq (Except ε α) := fun a b =>
  match a, b with
  | .error x, .error y =>
    if h : x = y then isTrue (by rw [h])
    else isFalse (by intro hc; cases hc; exact h rfl)
  | .error _, .ok _ => isFalse (by intro hc; cases hc)
  | .ok _, .error _ => isFalse (by intro hc; cases hc)
  | .ok x, .ok y =>
    if h : x = y then isTrue (by rw [h])
    else isFalse (by intro hc; cases hc; exact h rfl)

/-- Result of a handler whose body may let an exception propagate to the
framework: `response` is `.error msg` when the exception escapes (the span is
still closed by its context manager). -/
structure ViewResult where
  response : Except String HttpResponse
  flashes : List (String × String)
  rootSpan : RootSpan
deriving DecidableEq, Repr

/-- Embeds the `course_catalog` handler (src/app.py lines 63-71): one root
span, attributes for method and caller address, then the loaded course count;
a load parse-failure propagates out of the handler. -/
def course_catalog (method remoteAddr : String) (file : FileState) :
    ViewResult :=
  let baseAttrs : List (String × AttrVal) :=
    [("http.method", .str method), ("user.ip", .str remoteAddr)]
  match load_courses file with
  | .error e =>
    { response := .error e, flashes := [],
      rootSpan := { name := "Render course catalog", kind := .internal,
                    startTime := 0, endTime := 1, attrs := baseAttrs,
                    events := [], children := [] } }
  | .ok courses =>
    { response := .ok (.render "course_catalog.html"), flashes := [],
      rootSpan := { name := "Render course catalog", kind := .internal,
                    startTime := 0, endTime := 1,
                    attrs := baseAttrs ++ [("courses.count", .nat courses.length)],
                    events := [], children := [] } }

/-- Embeds the generator scan of src/app.py line 133:
`next((course for course in courses if course['code'] == code), None)`.
Returns the first record whose `code` equals the key; a record without a
`code` key reached before any match raises a `KeyError`. -/
def findCourse : List Course → String → Except String (Option Course)
  | [], _ => .ok none
  | c :: rest, code =>
    match dictFind? c "code" with
    | none => .error "KeyError: code"
    | some v => if v == code then .ok (some c) else findCourse rest code

/-- Embeds the `course_details` handler (src/app.py lines 126-137): span named
after the requested code, linear scan over the loaded catalog, not-found
flash plus redirect when no record matches. -/
def course_details (code method remoteAddr : String) (file : FileState) :
    ViewResult :=
  let rootSpan : RootSpan :=
    { name := "Course Code: " ++ code, kind := .internal,
      startTime := 0, endTime := 1,
      attrs := [("http.method", .str method), ("user.ip", .str remoteAddr)],
      events := [], children := [] }
  match load_courses file with
  | .error e => { response := .error e, flashes := [], rootSpan := rootSpan }
  | .ok courses =>
    match findCourse courses code with
    | .error e => { response := .error e, flashes := [], rootSpan := rootSpan }
    | .ok none =>
      { response := .ok (.redirect "course_catalog"),
        flashes := [("No course found with code \x27" ++ code ++ "\x27.",
                     "error")],
        rootSpan := rootSpan }
    | .ok (some _) =>
      { response := .ok (.render "course_details.html"), flashes := [],
        rootSpan := rootSpan }

/-- Embeds the `manual_trace` handler (src/app.py lines 140-146): one root
span of kind server with method and URL attributes and a processing event. -/
def manual_trace (method url : String) : ViewResult :=
  { response := .ok (.render "Manual trace recorded!"), flashes := [],
    rootSpan := { name := "manual-span", kind := .server,
                  startTime := 0, endTime := 1,
                  attrs := [("http.method", .str method),
                            ("http.url", .str url)],
                  events := [⟨"Processing request", []⟩], children := [] } }

/-- Holds when a root span is closed no earlier than it was opened and every
child span's interval is contained in the root's. -/
def RootSpan.wellNested (r : RootSpan) : Bool :=
  decide (r.startTime ≤ r.endTime) &&
  r.children.all (fun c =>
    decide (r.startTime ≤ c.startTime) && decide (c.startTime ≤ c.endTime) &&
    decide (c.endTime ≤ r.endTime))

/-- Spec-side description of the fields that validation must report: those
required fields whose submitted value is empty after trimming. -/
def emptyRequiredFields (form : List (String × String)) : List String :=
  requiredFields.filter (fun f => pyStrip (formGet form f) == "")

/-- Concrete form of the spec scenario: the nine fields of course CS101. -/
def cs101Form : List (String × String) :=
  [("code", "CS101"), ("name", "Intro"), ("instructor", "A"),
   ("semester", "F24"), ("schedule", "MWF"), ("classroom", "101"),
   ("prerequisites", "None"), ("grading", "Letter"),
   ("description", "Intro course")]

/-- The stored record the CS101 scenario is expected to produce. -/
def cs101Course : Course :=
  [("code", "CS101"), ("name", "Intro"), ("instructor", "A"),
   ("semester", "F24"), ("schedule", "MWF"), ("classroom", "101"),
   ("prerequisites", "None"), ("grading", "Letter"),
   ("description", "Intro course")]

theorem missingFields_parseForm (form : List (String × String)) :
    missingFields (parseForm form) = emptyRequiredFields form := by
  unfold missingFields parseForm emptyRequiredFields
  generalize requiredFields = fs
  induction fs with
  | nil => rfl
  | cons f fs ih =>
    simp only [List.map_cons, List.filter_cons]
    cases h : (pyStrip (formGet form f) == "") <;> simp [h, ih]

theorem formGet_append_blank (form : List (String × String)) (f g : String) :
    formGet (form ++ [(f, "")]) g = formGet form g := by
  unfold formGet
  rw [List.find?_append]
  cases hr : List.find? (fun kv => kv.1 == g) form with
  | some kv => rfl
  | none => cases h : (f == g) <;> simp [List.find?, h, Option.or]

/-- C5: loading when the backing file does not exist returns the empty
sequence and raises no error. -/
theorem claim5_load_absent : load_courses FileState.absent = Except.ok [] := rfl

/-- C9: every completed inbound operation has a root span whose end time is
no earlier than its start time and which is closed on every exit path, and
every child span's interval is contained in its parent's. -/
theorem claim9_spans_well_nested :
    (∀ method form env, ((add_course method form env).rootSpan).wellNested = true) ∧
    (∀ method ip file, ((course_catalog method ip file).rootSpan).wellNested = true) ∧
    (∀ code method ip file,
      ((course_details code method ip file).rootSpan).wellNested = true) ∧
    (∀ method url, ((manual_trace method url).rootSpan).wellNested = true) := by
  refine ⟨?_, ?_, ?_, ?_⟩
  · intro method form env
    unfold add_course
    dsimp only
    split
    · split
      · split <;> rfl
      · rfl
    · rfl
  · intro method ip file
    unfold course_catalog
    split <;> rfl
  · intro code method ip file
    unfold course_details
    split
    · rfl
    · split <;> rfl
  · intro method url
    rfl

theorem add_course_post_invalid (form : List (String × String)) (env : Env)
    (h : missingFields (parseForm form) ≠ []) :
    add_course "POST" form env =
      { response := .render "add_course.html",
        flashes := [("Missing fields: " ++
          String.intercalate ", " (missingFields (parseForm form)), "error")],
        file := env.file,
        rootSpan :=
          { name := "Add Course Operation", kind := .internal,
            startTime := 0, endTime := 5,
            attrs := [("http.method", .str "POST"),
                      ("http.route", .str "/add_course")],
            events := [],
            children :=
              [{ name := "Handle Form Data", kind := .internal,
                 startTime := 1, endTime := 2,
                 attrs := [("form.data_received",
                            .str (jsonDumps (parseForm form)))],
                 events := [] },
               { name := "Validate Form Data", kind := .internal,
                 startTime := 3, endTime := 4,
                 attrs := [("error", .bool true)],
                 events := [⟨"Validation Error",
                   [("missing_fields", .str (String.intercalate ", "
                       (missingFields (parseForm form)))),
                    ("message", .str ("Missing fields: " ++
                       String.intercalate ", "
                         (missingFields (parseForm form))))]⟩] }] },
        logs := [] } := by
  have hcond : (missingFields (parseForm form) == []) = false :=
    beq_eq_false_iff_ne.mpr h
  unfold add_course
  simp [hcond]

theorem add_course_post_saved (form : List (String × String)) (env : Env)
    (newFile : FileState)
    (hval : missingFields (parseForm form) = [])
    (hsave : save_courses env (parseForm form) = .ok newFile) :
    add_course "POST" form env =
      { response := .redirect "course_catalog",
        flashes := [("Course \x27" ++ dictGetD (parseForm form) "name" ++
                     "\x27 added successfully!", "success")],
        file := newFile,
        rootSpan :=
          { name := "Add Course Operation", kind := .internal,
            startTime := 0, endTime := 7,
            attrs := [("http.method", .str "POST"),
                      ("http.route", .str "/add_course")],
            events := [],
            children :=
              [{ name := "Handle Form Data", kind := .internal,
                 startTime := 1, endTime := 2,
                 attrs := [("form.data_received",
                            .str (jsonDumps (parseForm form)))],
                 events := [] },
               { name := "Validate Form Data", kind := .internal,
                 startTime := 3, endTime := 4, attrs := [], events := [] },
               { name := "Save Course Data", kind := .internal,
                 startTime := 5, endTime := 6, attrs := [],
                 events := [⟨"Course saved successfully",
                   [("course_code",
                     .str (dictGetD (parseForm form) "code"))]⟩] }] },
        logs := [] } := by
  unfold add_course
  simp [hval, hsave]

theorem add_course_post_save_error (form : List (String × String)) (env : Env)
    (e : String)
    (hval : missingFields (parseForm form) = [])
    (hsave : save_courses env (parseForm form) = .error e) :
    add_course "POST" form env =
      { response := .render "add_course.html",
        flashes := [("An unexpected error occurred. Please try again later.",
                     "error")],
        file := env.file,
        rootSpan :=
          { name := "Add Course Operation", kind := .internal,
            startTime := 0, endTime := 7,
            attrs := [("http.method", .str "POST"),
                      ("http.route", .str "/add_course"),
                      ("error", .bool true)],
            events := [⟨"Unhandled Exception",
              [("message", .str ("Unexpected error occurred: " ++ e))]⟩],
            children :=
              [{ name := "Handle Form Data", kind := .internal,
                 startTime := 1, endTime := 2,
                 attrs := [("form.data_received",
                            .str (jsonDumps (parseForm form)))],
                 events := [] },
               { name := "Validate Form Data", kind := .internal,
                 startTime := 3, endTime := 4, attrs := [], events := [] },
               { name := "Save Course Data", kind := .internal,
                 startTime := 5, endTime := 6,
                 attrs := [("error", .bool true)],
                 events := [⟨"Database Error",
                   [("message",
                     .str ("Failed to save course: " ++ e))]⟩] }] },
        logs := ["Unexpected error occurred: " ++ e] } := by
  unfold add_course
  simp [hval, hsave]

/-- C1: for every submitted course record with at least one required field
empty or whitespace-only after trimming, `add_course` returns a
validation-failure outcome (a re-rendered form with an error flash) naming
exactly the empty fields, no "Save Course Data" span is ever opened, and the
backing file is left unchanged. -/
theorem claim1_validation_failure (form : List (String × String)) (env : Env)
    (h : emptyRequiredFields form ≠ []) :
    ((add_course "POST" form env).file = env.file) ∧
    ((add_course "POST" form env).response =
      HttpResponse.render "add_course.html") ∧
    ((add_course "POST" form env).flashes =
      [("Missing fields: " ++
        String.intercalate ", " (emptyRequiredFields form), "error")]) ∧
    (∀ c ∈ (add_course "POST" form env).rootSpan.children,
      c.name ≠ "Save Course Data") ∧
    (∃ c ∈ (add_course "POST" form env).rootSpan.children,
      c.name = "Validate Form Data" ∧
      c.attrs = [("error", AttrVal.bool true)] ∧
      c.events = [⟨"Validation Error",
        [("missing_fields",
          AttrVal.str (String.intercalate ", " (emptyRequiredFields form))),
         ("message",
          AttrVal.str ("Missing fields: " ++
            String.intercalate ", " (emptyRequiredFields form)))]⟩]) := by
  have hm := missingFields_parseForm form
  have h' : missingFields (parseForm form) ≠ [] := by rw [hm]; exact h
  rw [add_course_post_invalid form env h', hm]
  refine ⟨rfl, rfl, rfl, ?_, ?_⟩
  · intro c hc
    rcases List.mem_cons.mp hc with rfl | hc'
    · simp
    · rcases List.mem_cons.mp hc' with rfl | hc''
      · simp
      · exact absurd hc'' (List.not_mem_nil c)
  · exact ⟨_, List.mem_cons_of_mem _ (List.mem_cons_self _ _), rfl, rfl, rfl⟩

/-- Witness for C1: a POST with every field absent (the empty form) fails
validation as claim1_validation_failure states, at a concrete input. -/
theorem claim1_witness :
    emptyRequiredFields [] ≠ [] ∧
    (((add_course "POST" [] ⟨FileState.absent, none⟩).file =
        FileState.absent) ∧
     ((add_course "POST" [] ⟨FileState.absent, none⟩).response =
        HttpResponse.render "add_course.html") ∧
     ((add_course "POST" [] ⟨FileState.absent, none⟩).flashes =
        [("Missing fields: " ++
          String.intercalate ", " (emptyRequiredFields []), "error")]) ∧
     (∀ c ∈ (add_course "POST" [] ⟨FileState.absent, none⟩).rootSpan.children,
        c.name ≠ "Save Course Data") ∧
     (∃ c ∈ (add_course "POST" [] ⟨FileState.absent, none⟩).rootSpan.children,
        c.name = "Validate Form Data" ∧
        c.attrs = [("error", AttrVal.bool true)] ∧
        c.events = [⟨"Validation Error",
          [("missing_fields",
            AttrVal.str (String.intercalate ", " (emptyRequiredFields []))),
           ("message",
            AttrVal.str ("Missing fields: " ++
              String.intercalate ", " (emptyRequiredFields [])))]⟩])) :=
  ⟨by decide, claim1_validation_failure [] ⟨FileState.absent, none⟩ (by decide)⟩

/-- C2: for every well-formed course record (all nine required fields
non-empty after trimming) and every readable prior catalog, submitting
appends exactly one record: the stored sequence becomes the prior sequence
with the new record at the end, preserving prior records and their order. -/
theorem claim2_append_preserves (form : List (String × String)) (env : Env)
    (prior : List Course)
    (hval : emptyRequiredFields form = [])
    (hload : load_courses env.file = Except.ok prior)
    (hfault : env.writeFault = none) :
    ((add_course "POST" form env).file =
      FileState.content (prior ++ [parseForm form])) ∧
    ((add_course "POST" form env).response =
      HttpResponse.redirect "course_catalog") := by
  have hval' : missingFields (parseForm form) = [] := by
    rw [missingFields_parseForm]; exact hval
  have hsave : save_courses env (parseForm form) =
      Except.ok (FileState.content (prior ++ [parseForm form])) := by
    unfold save_courses
    rw [hload, hfault]
  rw [add_course_post_saved form env _ hval' hsave]
  exact ⟨rfl, rfl⟩

/-- Witness for C2: submitting the CS101 record on top of a one-record
catalog appends it after the existing record. -/
theorem claim2_witness :
    emptyRequiredFields cs101Form = [] ∧
    load_courses (Env.mk (FileState.content [[("code", "X")]]) none).file =
      Except.ok [[("code", "X")]] ∧
    (Env.mk (FileState.content [[("code", "X")]]) none).writeFault = none ∧
    (((add_course "POST" cs101Form
        (Env.mk (FileState.content [[("code", "X")]]) none)).file =
      FileState.content ([[("code", "X")]] ++ [parseForm cs101Form])) ∧
     ((add_course "POST" cs101Form
        (Env.mk (FileState.content [[("code", "X")]]) none)).response =
      HttpResponse.redirect "course_catalog")) :=
  ⟨by decide, rfl, rfl,
   claim2_append_preserves cs101Form
     (Env.mk (FileState.content [[("code", "X")]]) none)
     [[("code", "X")]] (by decide) rfl rfl⟩

/-- C4: every exception raised inside the "Save Course Data" step is first
annotated on that child span (error attribute plus a "Database Error" event
with the message), then re-raised and caught at the root span, which gets
the error attribute, an "Unhandled Exception" event with the error message,
a log line, and a generic user-facing failure response; no exception escapes
the handler (the result is an ordinary rendered response) and the file is
unchanged. -/
theorem claim4_save_error_two_level (form : List (String × String)) (env : Env)
    (e : String)
    (hval : emptyRequiredFields form = [])
    (hsave : save_courses env (parseForm form) = Except.error e) :
    (∃ c ∈ (add_course "POST" form env).rootSpan.children,
      c.name = "Save Course Data" ∧
      c.attrs = [("error", AttrVal.bool true)] ∧
      c.events = [⟨"Database Error",
        [("message", AttrVal.str ("Failed to save course: " ++ e))]⟩]) ∧
    (("error", AttrVal.bool true) ∈
      (add_course "POST" form env).rootSpan.attrs) ∧
    ((add_course "POST" form env).rootSpan.events =
      [⟨"Unhandled Exception",
        [("message", AttrVal.str ("Unexpected error occurred: " ++ e))]⟩]) ∧
    ((add_course "POST" form env).logs =
      ["Unexpected error occurred: " ++ e]) ∧
    ((add_course "POST" form env).flashes =
      [("An unexpected error occurred. Please try again later.", "error")]) ∧
    ((add_course "POST" form env).response =
      HttpResponse.render "add_course.html") ∧
    ((add_course "POST" form env).file = env.file) := by
  have hval' : missingFields (parseForm form) = [] := by
    rw [missingFields_parseForm]; exact hval
  rw [add_course_post_save_error form env e hval' hsave]
  refine ⟨?_, ?_, rfl, rfl, rfl, rfl, rfl⟩
  · exact ⟨_, List.mem_cons_of_mem _
      (List.mem_cons_of_mem _ (List.mem_cons_self _ _)), rfl, rfl, rfl⟩
  · exact List.mem_cons_of_mem _
      (List.mem_cons_of_mem _ (List.mem_cons_self _ _))

/-- Witness for C4: a write fault "disk full" while saving the CS101 record
is annotated on the save span and the root span exactly as claimed. -/
theorem claim4_witness :
    emptyRequiredFields cs101Form = [] ∧
    save_courses (Env.mk FileState.absent (some "disk full"))
      (parseForm cs101Form) = Except.error "disk full" ∧
    ((∃ c ∈ (add_course "POST" cs101Form
        (Env.mk FileState.absent (some "disk full"))).rootSpan.children,
      c.name = "Save Course Data" ∧
      c.attrs = [("error", AttrVal.bool true)] ∧
      c.events = [⟨"Database Error",
        [("message",
          AttrVal.str ("Failed to save course: " ++ "disk full"))]⟩]) ∧
    (("error", AttrVal.bool true) ∈
      (add_course "POST" cs101Form
        (Env.mk FileState.absent (some "disk full"))).rootSpan.attrs) ∧
    ((add_course "POST" cs101Form
        (Env.mk FileState.absent (some "disk full"))).rootSpan.events =
      [⟨"Unhandled Exception",
        [("message",
          AttrVal.str ("Unexpected error occurred: " ++ "disk full"))]⟩]) ∧
    ((add_course "POST" cs101Form
        (Env.mk FileState.absent (some "disk full"))).logs =
      ["Unexpected error occurred: " ++ "disk full"]) ∧
    ((add_course "POST" cs101Form
        (Env.mk FileState.absent (some "disk full"))).flashes =
      [("An unexpected error occurred. Please try again later.", "error")]) ∧
    ((add_course "POST" cs101Form
        (Env.mk FileState.absent (some "disk full"))).response =
      HttpResponse.render "add_course.html") ∧
    ((add_course "POST" cs101Form
        (Env.mk FileState.absent (some "disk full"))).file =
      (Env.mk FileState.absent (some "disk full")).file)) :=
  ⟨by decide, rfl,
   claim4_save_error_two_level cs101Form
     (Env.mk FileState.absent (some "disk full")) "disk full"
     (by decide) rfl⟩

/-- C8: whenever an exception reaches the root-span handler of the submit
operation, the user-facing response is a fixed generic message independent of
the exception's content: two runs failing with different internal errors
produce identical responses and flashes, equal to the constant generic
failure message (the raw error string goes to span telemetry and the log
only). -/
theorem claim8_generic_error_response (form₁ form₂ : List (String × String))
    (env₁ env₂ : Env) (e₁ e₂ : String)
    (hv₁ : emptyRequiredFields form₁ = [])
    (hv₂ : emptyRequiredFields form₂ = [])
    (hs₁ : save_courses env₁ (parseForm form₁) = Except.error e₁)
    (hs₂ : save_courses env₂ (parseForm form₂) = Except.error e₂) :
    ((add_course "POST" form₁ env₁).response =
      (add_course "POST" form₂ env₂).response) ∧
    ((add_course "POST" form₁ env₁).flashes =
      (add_course "POST" form₂ env₂).flashes) ∧
    ((add_course "POST" form₁ env₁).flashes =
      [("An unexpected error occurred. Please try again later.", "error")]) ∧
    ((add_course "POST" form₁ env₁).response =
      HttpResponse.render "add_course.html") := by
  have hv₁' : missingFields (parseForm form₁) = [] := by
    rw [missingFields_parseForm]; exact hv₁
  have hv₂' : missingFields (parseForm form₂) = [] := by
    rw [missingFields_parseForm]; exact hv₂
  rw [add_course_post_save_error form₁ env₁ e₁ hv₁' hs₁,
      add_course_post_save_error form₂ env₂ e₂ hv₂' hs₂]
  exact ⟨rfl, rfl, rfl, rfl⟩

/-- Witness for C8: two failing runs, one with error "disk full" and one with
error "permission denied", produce the same generic user-facing response. -/
theorem claim8_witness :
    emptyRequiredFields cs101Form = [] ∧
    save_courses (Env.mk FileState.absent (some "disk full"))
      (parseForm cs101Form) = Except.error "disk full" ∧
    save_courses (Env.mk FileState.absent (some "permission denied"))
      (parseForm cs101Form) = Except.error "permission denied" ∧
    (((add_course "POST" cs101Form
        (Env.mk FileState.absent (some "disk full"))).response =
      (add_course "POST" cs101Form
        (Env.mk FileState.absent (some "permission denied"))).response) ∧
     ((add_course "POST" cs101Form
        (Env.mk FileState.absent (some "disk full"))).flashes =
      (add_course "POST" cs101Form
        (Env.mk FileState.absent (some "permission denied"))).flashes) ∧
     ((add_course "POST" cs101Form
        (Env.mk FileState.absent (some "disk full"))).flashes =
      [("An unexpected error occurred. Please try again later.", "error")]) ∧
     ((add_course "POST" cs101Form
        (Env.mk FileState.absent (some "disk full"))).response =
      HttpResponse.render "add_course.html")) :=
  ⟨by decide, rfl, rfl,
   claim8_generic_error_response cs101Form cs101Form
     (Env.mk FileState.absent (some "disk full"))
     (Env.mk FileState.absent (some "permission denied"))
     "disk full" "permission denied"
     (by decide) (by decide) rfl rfl⟩

/-- C6 as stated is false at its own scenario: after submitting the CS101
record over absent storage, the root span "Add Course Operation" carries no
"Course saved successfully" event at all — that event is recorded on the
"Save Course Data" child span. -/
theorem claim6_counterexample :
    ¬ ∃ ev ∈ (add_course "POST" cs101Form
        (Env.mk FileState.absent none)).rootSpan.events,
      ev.name = "Course saved successfully" := by
  decide

/-- C6 amended: in the CS101 scenario over absent storage the catalog
afterwards contains exactly one record equal to the input, and the
"Save Course Data" child span of the operation's root span carries the
"Course saved successfully" event with attribute course_code="CS101". -/
theorem claim6_amended :
    (add_course "POST" cs101Form (Env.mk FileState.absent none)).file =
      FileState.content [cs101Course] ∧
    (∃ c ∈ (add_course "POST" cs101Form
        (Env.mk FileState.absent none)).rootSpan.children,
      c.name = "Save Course Data" ∧
      (⟨"Course saved successfully",
        [("course_code", AttrVal.str "CS101")]⟩ : SpanEvent) ∈ c.events) := by
  refine ⟨by decide, ?_⟩
  refine ⟨_, List.mem_cons_of_mem _
    (List.mem_cons_of_mem _ (List.mem_cons_self _ _)), ?_, ?_⟩ <;> decide

theorem findCourse_append_first (pre post : List Course) (c : Course)
    (key : String)
    (hpre : ∀ c' ∈ pre, dictFind? c' "code" ≠ none ∧
      dictFind? c' "code" ≠ some key)
    (hc : dictFind? c "code" = some key) :
    findCourse (pre ++ c :: post) key = Except.ok (some c) := by
  induction pre with
  | nil =>
    simp only [List.nil_append, findCourse, hc]
    simp
  | cons p ps ih =>
    obtain ⟨h1, h2⟩ := hpre p (List.mem_cons_self p ps)
    cases hv : dictFind? p "code" with
    | none => exact absurd hv h1
    | some v =>
      have hne : (v == key) = false := by
        apply beq_eq_false_iff_ne.mpr
        intro hvk
        exact h2 (hvk ▸ hv)
      simp only [List.cons_append, findCourse, hv, hne, Bool.false_eq_true,
        if_false]
      exact ih (fun c' h => hpre c' (List.mem_cons_of_mem p h))

theorem findCourse_not_found (cs : List Course) (key : String)
    (h : ∀ c ∈ cs, dictFind? c "code" ≠ none ∧
      dictFind? c "code" ≠ some key) :
    findCourse cs key = Except.ok none := by
  induction cs with
  | nil => rfl
  | cons p ps ih =>
    obtain ⟨h1, h2⟩ := h p (List.mem_cons_self p ps)
    cases hv : dictFind? p "code" with
    | none => exact absurd hv h1
    | some v =>
      have hne : (v == key) = false := by
        apply beq_eq_false_iff_ne.mpr
        intro hvk
        exact h2 (hvk ▸ hv)
      simp only [findCourse, hv, hne, Bool.false_eq_true, if_false]
      exact ih (fun c' hm => h c' (List.mem_cons_of_mem p hm))

/-- C3: the single-course lookup is a linear scan over the loaded sequence:
for any catalog splitting as pre ++ c :: post where no record of pre has
`code` equal to the key and c does, the lookup returns c — the first match in
insertion order — even when post contains further records with the same key,
and the view renders that record. -/
theorem claim3_find_first_match (pre post : List Course) (c : Course)
    (key method ip : String)
    (hpre : ∀ c' ∈ pre, dictFind? c' "code" ≠ none ∧
      dictFind? c' "code" ≠ some key)
    (hc : dictFind? c "code" = some key) :
    findCourse (pre ++ c :: post) key = Except.ok (some c) ∧
    (course_details key method ip
        (FileState.content (pre ++ c :: post))).response =
      Except.ok (HttpResponse.render "course_details.html") := by
  have hfind := findCourse_append_first pre post c key hpre hc
  refine ⟨hfind, ?_⟩
  simp only [course_details, load_courses, hfind]

/-- Witness for C3: a catalog with two records sharing code "A" (preceded by
an unrelated record); the lookup returns the first "A" record in insertion
order. -/
theorem claim3_witness :
    (∀ c' ∈ [[("code", "B"), ("name", "zero")]],
      dictFind? c' "code" ≠ none ∧ dictFind? c' "code" ≠ some "A") ∧
    dictFind? [("code", "A"), ("name", "first")] "code" = some "A" ∧
    (findCourse ([[("code", "B"), ("name", "zero")]] ++
        [("code", "A"), ("name", "first")] ::
        [[("code", "A"), ("name", "second")]]) "A" =
      Except.ok (some [("code", "A"), ("name", "first")]) ∧
    (course_details "A" "GET" "127.0.0.1"
        (FileState.content ([[("code", "B"), ("name", "zero")]] ++
          [("code", "A"), ("name", "first")] ::
          [[("code", "A"), ("name", "second")]]))).response =
      Except.ok (HttpResponse.render "course_details.html")) :=
  ⟨by decide, rfl,
   claim3_find_first_match [[("code", "B"), ("name", "zero")]]
     [[("code", "A"), ("name", "second")]]
     [("code", "A"), ("name", "first")] "A" "GET" "127.0.0.1"
     (by decide) rfl⟩

/-- C7: looking up a key that matches no record's `code` in the loaded
catalog produces the not-found outcome — an error flash naming the key and a
redirect to the catalog listing — and no exception. -/
theorem claim7_not_found (key method ip : String) (cs : List Course)
    (h : ∀ c ∈ cs, dictFind? c "code" ≠ none ∧
      dictFind? c "code" ≠ some key) :
    ((course_details key method ip (FileState.content cs)).response =
      Except.ok (HttpResponse.redirect "course_catalog")) ∧
    ((course_details key method ip (FileState.content cs)).flashes =
      [("No course found with code \x27" ++ key ++ "\x27.", "error")]) := by
  have hfind := findCourse_not_found cs key h
  simp [course_details, load_courses, hfind]

/-- Witness for C7: looking up "CS999" in a catalog holding only CS101 gives
the not-found outcome. -/
theorem claim7_witness :
    (∀ c ∈ [[("code", "CS101")]], dictFind? c "code" ≠ none ∧
      dictFind? c "code" ≠ some "CS999") ∧
    (((course_details "CS999" "GET" "127.0.0.1"
        (FileState.content [[("code", "CS101")]])).response =
      Except.ok (HttpResponse.redirect "course_catalog")) ∧
     ((course_details "CS999" "GET" "127.0.0.1"
        (FileState.content [[("code", "CS101")]])).flashes =
      [("No course found with code \x27" ++ "CS999" ++ "\x27.", "error")])) :=
  ⟨by decide,
   claim7_not_found "CS999" "GET" "127.0.0.1" [[("code", "CS101")]]
     (by decide)⟩

/-- C10: when a required field key is entirely absent from a submitted form,
form parsing substitutes the empty string for it (the `.get(field, '')`
default, so no key-lookup error arises), the parsed record is identical to
the one parsed from the same form with that key explicitly bound to the
blank value, and validation reports the field as missing. -/
theorem claim10_absent_field_blank (form : List (String × String)) (f : String)
    (hf : f ∈ requiredFields)
    (habs : ∀ kv ∈ form, kv.1 ≠ f) :
    formGet form f = "" ∧
    parseForm form = parseForm (form ++ [(f, "")]) ∧
    f ∈ missingFields (parseForm form) := by
  have hget : formGet form f = "" := by
    unfold formGet
    have hnone : List.find? (fun kv => kv.1 == f) form = none := by
      apply List.find?_eq_none.mpr
      intro kv hkv
      simp [habs kv hkv]
    rw [hnone]
  refine ⟨hget, ?_, ?_⟩
  · unfold parseForm
    apply List.map_congr_left
    intro g _
    rw [formGet_append_blank]
  · rw [missingFields_parseForm]
    unfold emptyRequiredFields
    apply List.mem_filter.mpr
    refine ⟨hf, ?_⟩
    rw [hget]
    decide

/-- Witness for C10: a form carrying only the code field; the absent "name"
key parses as blank and is reported missing. -/
theorem claim10_witness :
    "name" ∈ requiredFields ∧
    (∀ kv ∈ [(("code" : String), ("CS101" : String))], kv.1 ≠ "name") ∧
    (formGet [("code", "CS101")] "name" = "" ∧
     parseForm [("code", "CS101")] =
       parseForm ([("code", "CS101")] ++ [("name", "")]) ∧
     "name" ∈ missingFields (parseForm [("code", "CS101")])) :=
  ⟨by decide, by decide,
   claim10_absent_field_blank [("code", "CS101")] "name"
     (by decide) (by decide)⟩
